import Mathlib

/-!
Verification development for a 5-agent Instagram-DM assistant
(translator, quick-response, sentiment, lead-qualifier, memory agents plus
an orchestrator).  The Python source is embedded shallowly:

* The SQLite store (`memory.py`) becomes a `MemState` of four row lists kept
  in insertion order, with a logical clock standing for
  `CURRENT_TIMESTAMP` / `datetime.now()`.  SQL `ORDER BY ts DESC` is modelled
  as a stable `mergeSort` under the descending comparator: SQL leaves the
  relative order of rows with equal keys unspecified, but sqlite3 observably
  returns equal-key rows in table-scan (insertion) order within the DESC
  output, which is exactly a stable descending sort.
  Storage I/O failure is modelled by a `writeFail` flag on the state: when it
  is set, every writing operation raises `StorageError`, as an unreachable
  SQLite file would make `sqlite3` do; reads are left total.
* Every remote language-model call goes through an oracle record `Remote`:
  `complete` is the text-completion capability (max-tokens, chat messages ->
  free text) and `detect` the `langdetect` capability; the `parse*` fields
  stand for `json.loads` applied to a completion, `none` meaning the response
  failed to parse as JSON of the expected shape.
* Python exceptions that the source lets escape are modelled with `Except`;
  fallback values that the source returns from `try/except` blocks are
  plain values.
-/

/-- Parsed output shape of the sentiment-analysis adapter (`sentiment.py`). -/
structure SentimentResult where
  sentiment : String
  priority : Nat
  category : String
  requires_immediate_attention : Bool
  summary : String
deriving Repr, DecidableEq

/-- Parsed output shape of the lead-scoring adapter (`lead_qualifier.py`);
the orchestrator and the fallback only ever touch these four fields. -/
structure LeadScore where
  score : String
  confidence : Nat
  intent_level : Nat
  reasoning : String
deriving Repr, DecidableEq

/-- Parsed output shape of the buying-signal adapter (`lead_qualifier.py`). -/
structure BuyingSignals where
  has_buying_signal : Bool
  signal_strength : String
  signals_detected : List String
deriving Repr, DecidableEq

/-- Result dict of `TranslatorAgent.translate`. -/
structure Translation where
  original : String
  translated : String
  source_language : String
  target_language : String
  was_translated : Bool
deriving Repr, DecidableEq

/-- A conversation turn as the Python code passes it around: a dict with
`role` and `content`, and a `timestamp` key that rows loaded from the store
have but the transient turn appended in `process_message` lacks. -/
structure Msg where
  role : String
  content : String
  timestamp : Option Nat
deriving Repr, DecidableEq

/-- Row of the `clients` table. -/
structure ClientRow where
  client_id : String
  name : Option String
  language : Option String
  created_at : Nat
  last_contact : Option Nat
  lead_score : Option String
  notes : Option String
deriving Repr, DecidableEq

/-- Row of the `client_details` table (`id` is the AUTOINCREMENT key). -/
structure DetailRow where
  id : Nat
  client_id : String
  key : String
  value : String
  created_at : Nat
deriving Repr, DecidableEq

/-- Row of the `conversations` table. -/
structure ConversationRow where
  id : Nat
  client_id : String
  role : String
  content : String
  timestamp : Nat
  platform : String
deriving Repr, DecidableEq

/-- Row of the `orders` table. -/
structure OrderRow where
  id : Nat
  client_id : String
  product : String
  amount : Int
  status : String
  created_at : Nat
deriving Repr, DecidableEq

/-- Order dict as returned by `get_orders`. -/
structure OrderView where
  product : String
  amount : Int
  status : String
  created_at : Nat
deriving Repr, DecidableEq

/-- The SQLite database of `memory.py`: the four tables in row-insertion
order, the AUTOINCREMENT counters, a logical clock for timestamps, and a
flag modelling an I/O fault of the storage medium (writes raise, reads
still succeed). -/
structure MemState where
  clients : List ClientRow
  client_details : List DetailRow
  conversations : List ConversationRow
  orders : List OrderRow
  nextDetailId : Nat
  nextConvId : Nat
  nextOrderId : Nat
  clock : Nat
  writeFail : Bool
deriving Repr, DecidableEq

/-- A fresh, empty database. -/
def emptyMem : MemState :=
  { clients := []
    client_details := []
    conversations := []
    orders := []
    nextDetailId := 0
    nextConvId := 0
    nextOrderId := 0
    clock := 0
    writeFail := false }

/-- A fresh, empty database whose storage medium rejects writes. -/
def brokenMem : MemState :=
  { emptyMem with writeFail := true }

/-- Persistence I/O failure (spec section 7: `StorageError`). -/
inductive StorageError where
  | ioError
deriving Repr, DecidableEq

/-- The external capabilities (spec sections 1 and 6): the remote completion
capability, the language-detection capability, and `json.loads` applied to a
completion at each expected shape (`none` = the text is not JSON of that
shape). -/
structure Remote where
  complete : Nat → List (String × String) → String
  detect : String → String
  parseSentiment : String → Option SentimentResult
  parseLead : String → Option LeadScore
  parseSignals : String → Option BuyingSignals
  parseStrList : String → Option (List String)

namespace MemoryAgent

/-- SQL `ORDER BY timestamp DESC` over the `conversations` table.  SQL does
not fix the order of rows with equal timestamps; sqlite3 observably emits
equal-timestamp rows in insertion order within the descending output, i.e.
the sort is stable under the descending comparator, which this definition
mirrors. -/
def orderByTimestampDesc (rows : List ConversationRow) : List ConversationRow :=
  rows.mergeSort (fun a b => decide (b.timestamp ≤ a.timestamp))

/-- SQL `ORDER BY created_at DESC` over `client_details`, modelled as above
(stable descending sort). -/
def orderDetailsDesc (rows : List DetailRow) : List DetailRow :=
  rows.mergeSort (fun a b => decide (b.created_at ≤ a.created_at))

/-- SQL `ORDER BY created_at DESC` over `orders`, modelled as above (stable
descending sort). -/
def orderOrdersDesc (rows : List OrderRow) : List OrderRow :=
  rows.mergeSort (fun a b => decide (b.created_at ≤ a.created_at))

/-- `get_client`: `SELECT * FROM clients WHERE client_id = ?` (primary key,
so the first matching row). -/
def get_client (s : MemState) (client_id : String) : Option ClientRow :=
  s.clients.find? (fun r => r.client_id == client_id)

/-- State change of `save_client`: `INSERT INTO clients ... ON CONFLICT
(client_id) DO UPDATE SET name = COALESCE(?, name), language = COALESCE(?,
language), last_contact = ?`. -/
def save_clientPure (s : MemState) (client_id : String) (name language : Option String) :
    MemState :=
  match s.clients.find? (fun r => r.client_id == client_id) with
  | none =>
      { s with
        clients := s.clients ++
          [{ client_id := client_id
             name := name
             language := language
             created_at := s.clock
             last_contact := some s.clock
             lead_score := none
             notes := none }]
        clock := s.clock + 1 }
  | some _ =>
      { s with
        clients := s.clients.map (fun r =>
          if r.client_id == client_id then
            { r with
              name := name.or r.name
              language := language.or r.language
              last_contact := some s.clock }
          else r)
        clock := s.clock + 1 }

/-- `save_client`, raising `StorageError` when the storage medium fails. -/
def save_client (s : MemState) (client_id : String) (name language : Option String) :
    Except StorageError MemState :=
  if s.writeFail then .error .ioError else .ok (save_clientPure s client_id name language)

/-- State change of `save_detail`: ensure the client exists, then `UPDATE`
the row for `(client_id, key)` in place if one exists, else `INSERT` a new
row. -/
def save_detailPure (s : MemState) (client_id key value : String) : MemState :=
  let s := save_clientPure s client_id none none
  if (s.client_details.filter (fun d => d.client_id == client_id && d.key == key)).isEmpty then
    { s with
      client_details := s.client_details ++
        [{ id := s.nextDetailId
           client_id := client_id
           key := key
           value := value
           created_at := s.clock }]
      nextDetailId := s.nextDetailId + 1
      clock := s.clock + 1 }
  else
    { s with
      client_details := s.client_details.map (fun d =>
        if d.client_id == client_id && d.key == key then
          { d with
            value := value
            created_at := s.clock }
        else d)
      clock := s.clock + 1 }

/-- `save_detail`, raising `StorageError` when the storage medium fails. -/
def save_detail (s : MemState) (client_id key value : String) : Except StorageError MemState :=
  if s.writeFail then .error .ioError else .ok (save_detailPure s client_id key value)

/-- `get_detail`: `SELECT value ... WHERE client_id = ? AND key = ? ORDER BY
created_at DESC LIMIT 1`, then `fetchone`. -/
def get_detail (s : MemState) (client_id key : String) : Option String :=
  ((orderDetailsDesc (s.client_details.filter
      (fun d => d.client_id == client_id && d.key == key))).take 1).head?.map
    (fun d => d.value)

/-- One step of building a Python dict: `d[k] = v` keeps the position of an
existing key and overwrites its value. -/
def dictInsert (m : List (String × String)) (k v : String) : List (String × String) :=
  if m.any (fun p => p.1 == k) then
    m.map (fun p => if p.1 == k then (p.1, v) else p)
  else
    m ++ [(k, v)]

/-- `get_all_details`: `SELECT key, value ... WHERE client_id = ?` collected
into a Python dict comprehension. -/
def get_all_details (s : MemState) (client_id : String) : List (String × String) :=
  (s.client_details.filter (fun d => d.client_id == client_id)).foldl
    (fun m d => dictInsert m d.key d.value) []

/-- State change of `save_message`: ensure the client exists, then `INSERT
INTO conversations (client_id, role, content, platform)` with the default
`CURRENT_TIMESTAMP`. -/
def save_messagePure (s : MemState) (client_id role content platform : String) : MemState :=
  let s := save_clientPure s client_id none none
  { s with
    conversations := s.conversations ++
      [{ id := s.nextConvId
         client_id := client_id
         role := role
         content := content
         timestamp := s.clock
         platform := platform }]
    nextConvId := s.nextConvId + 1
    clock := s.clock + 1 }

/-- `save_message`, raising `StorageError` when the storage medium fails. -/
def save_message (s : MemState) (client_id role content platform : String) :
    Except StorageError MemState :=
  if s.writeFail then .error .ioError
  else .ok (save_messagePure s client_id role content platform)

/-- `get_history`: `SELECT role, content, timestamp ... WHERE client_id = ?
ORDER BY timestamp DESC LIMIT ?`, then reversed into chronological order and
turned into dicts. -/
def get_history (s : MemState) (client_id : String) (limit : Nat) : List Msg :=
  (((orderByTimestampDesc (s.conversations.filter
        (fun r => r.client_id == client_id))).take limit).reverse).map
    (fun r => { role := r.role, content := r.content, timestamp := some r.timestamp })

/-- `get_orders`: `SELECT product, amount, status, created_at ... ORDER BY
created_at DESC`. -/
def get_orders (s : MemState) (client_id : String) : List OrderView :=
  (orderOrdersDesc (s.orders.filter (fun r => r.client_id == client_id))).map
    (fun r =>
      { product := r.product
        amount := r.amount
        status := r.status
        created_at := r.created_at })

/-- State change of `update_lead_score`: `UPDATE clients SET lead_score = ?
WHERE client_id = ?`. -/
def update_lead_scorePure (s : MemState) (client_id score : String) : MemState :=
  { s with
    clients := s.clients.map (fun r =>
      if r.client_id == client_id then { r with lead_score := some score } else r) }

/-- `update_lead_score`, raising `StorageError` when the storage medium
fails. -/
def update_lead_score (s : MemState) (client_id score : String) :
    Except StorageError MemState :=
  if s.writeFail then .error .ioError else .ok (update_lead_scorePure s client_id score)

/-- `_generate_context_summary`: builds the `parts` list in the source's
fixed order (Python truthiness: `None` and the empty string are skipped) and
joins it with `" | "`, or returns the fixed marker when nothing is
present. -/
def _generate_context_summary (client : Option ClientRow) (details : List (String × String))
    (history : List Msg) (orders : List OrderView) : String :=
  let parts : List String :=
    (match client with
     | some c =>
         (match c.name with
          | some n => if n == "" then [] else ["Client: " ++ n]
          | none => []) ++
         (match c.language with
          | some l => if l == "" then [] else ["Language: " ++ l]
          | none => []) ++
         (match c.lead_score with
          | some sc => if sc == "" then [] else ["Lead score: " ++ sc]
          | none => [])
     | none => []) ++
    details.map (fun p => p.1 ++ ": " ++ p.2) ++
    (if orders.isEmpty then []
     else
       ["Orders: " ++ toString orders.length ++ " total"] ++
       (match orders.head? with
        | some last => ["Last order: " ++ last.product ++ " (" ++ last.status ++ ")"]
        | none => [])) ++
    (if history.isEmpty then []
     else ["Conversation history: " ++ toString history.length ++ " messages"])
  if parts.isEmpty then "New client, no history" else String.intercalate " | " parts

/-- The Context Snapshot dict built by `get_context`. -/
structure Context where
  client : Option ClientRow
  details : List (String × String)
  recent_history : List Msg
  orders : List OrderView
  summary : String
deriving Repr, DecidableEq

/-- `get_context`: client profile, all details, the last 10 messages, all
orders, and the generated summary. -/
def get_context (s : MemState) (client_id : String) : Context :=
  let client := get_client s client_id
  let details := get_all_details s client_id
  let history := get_history s client_id 10
  let orders := get_orders s client_id
  { client := client
    details := details
    recent_history := history
    orders := orders
    summary := _generate_context_summary client details history orders }

end MemoryAgent

/-- Modelled from the spec: `config.PREFERRED_LANGUAGE`, the pipeline's
working language.  `config.py` is not among the repository files given; spec
section 4.3 step 2 describes the normalized text as "target-language, e.g.
\"en\"" and the source of `auto_reply` compares the detected language against
the literal `"en"`. -/
def PREFERRED_LANGUAGE : String := "en"

namespace TranslatorAgent

/-- The `language_names` table of `translator.py`. -/
def language_names : List (String × String) :=
  [("en", "English"), ("es", "Spanish"), ("fr", "French"), ("de", "German"),
   ("it", "Italian"), ("pt", "Portuguese"), ("ar", "Arabic"), ("zh", "Chinese"),
   ("ja", "Japanese"), ("ko", "Korean"), ("hi", "Hindi"), ("ru", "Russian")]

/-- Prompt template of `TranslatorAgent.translate`. -/
def translatePrompt (target_name message : String) : String :=
  "Translate the following message to " ++ target_name ++ ".\n" ++
  "Keep the tone natural and conversational. Only output the translation, nothing else.\n\n" ++
  "Message: " ++ message

/-- `TranslatorAgent.translate`: detect the source language, pass the message
through when it already is in the target language, otherwise ask the remote
capability for a translation. -/
def translate (o : Remote) (message target_language : String) : Translation :=
  let source_lang := o.detect message
  if source_lang == target_language then
    { original := message
      translated := message
      source_language := source_lang
      target_language := target_language
      was_translated := false }
  else
    let target_name :=
      (((language_names.find? (fun p => p.1 == target_language)).map (fun p => p.2)).getD
        target_language)
    { original := message
      translated := o.complete 1024 [("user", translatePrompt target_name message)]
      source_language := source_lang
      target_language := target_language
      was_translated := true }

/-- The `tone_instructions` table of `adjust_tone`. -/
def tone_instructions : List (String × String) :=
  [("friendly", "Make it warm, casual, and approachable. Use a conversational style."),
   ("professional", "Make it formal, polite, and business-appropriate."),
   ("persuasive", "Make it compelling and sales-oriented while remaining respectful.")]

/-- Prompt template of `adjust_tone`. -/
def adjustTonePrompt (instruction message : String) : String :=
  "Rewrite the following message with this tone adjustment: " ++ instruction ++ "\n\n" ++
  "Keep the same meaning and language. Only output the rewritten message.\n\n" ++
  "Message: " ++ message

/-- `TranslatorAgent.adjust_tone`: one remote call with the instruction for
the requested tone (professional when the tone is unknown). -/
def adjust_tone (o : Remote) (message tone : String) : String :=
  let instruction :=
    (((tone_instructions.find? (fun p => p.1 == tone)).map (fun p => p.2)).getD
      "Make it formal, polite, and business-appropriate.")
  o.complete 1024 [("user", adjustTonePrompt instruction message)]

/-- `TranslatorAgent.translate_for_client`: translate a reply into the
client's language and keep only the text. -/
def translate_for_client (o : Remote) (message client_language : String) : String :=
  (translate o message client_language).translated

end TranslatorAgent

namespace SentimentAgent

/-- Prompt template of `SentimentAgent.analyze`. -/
def analyzePrompt (message : String) : String :=
  "Analyze this Instagram DM and provide:\n" ++
  "1. sentiment: one of [positive, neutral, negative, angry, frustrated]\n" ++
  "2. priority: score from 1-10 (10 = most urgent)\n" ++
  "3. category: one of [urgent, sales_opportunity, general_inquiry, spam, complaint, follow_up]\n" ++
  "4. requires_immediate_attention: true/false\n" ++
  "5. summary: one sentence summary of the message intent\n\n" ++
  "Message: " ++ message ++ "\n\n" ++
  "Output as JSON only, no other text."

/-- The deterministic fallback `analyze` returns when the completion fails to
parse as JSON; the summary is the input truncated to 100 characters. -/
def analyzeFallback (message : String) : SentimentResult :=
  { sentiment := "neutral"
    priority := 5
    category := "general_inquiry"
    requires_immediate_attention := false
    summary := message.take 100 }

/-- `SentimentAgent.analyze`: one remote call, `json.loads` on the response,
and the deterministic fallback on parse failure (the `except` branch). -/
def analyze (o : Remote) (message : String) : SentimentResult :=
  let response := o.complete 256 [("user", analyzePrompt message)]
  match o.parseSentiment response with
  | some result => result
  | none => analyzeFallback message

end SentimentAgent

namespace LeadQualifierAgent

/-- The `"\n".join(f"{msg['role']}: {msg['content']}" ...)` rendering of a
conversation used by the lead-qualifier prompts. -/
def conversationText (conversation : List Msg) : String :=
  String.intercalate "\n" (conversation.map (fun m => m.role ++ ": " ++ m.content))

/-- Prompt template of `score_lead`. -/
def scoreLeadPrompt (conversation_text : String) : String :=
  "Analyze this conversation and qualify the lead.\n\n" ++
  "Conversation:\n" ++ conversation_text ++ "\n\n" ++
  "Evaluate and provide:\n" ++
  "1. score: \"hot\", \"warm\", or \"cold\"\n" ++
  "2. confidence: percentage 0-100\n" ++
  "3. intent_level: 1-10 (10 = ready to buy)\n" ++
  "4. budget_indicated: true/false (and amount if mentioned)\n" ++
  "5. timeline_indicated: true/false (and timeframe if mentioned)\n" ++
  "6. decision_maker: true/false/unknown\n" ++
  "7. pain_points: list of identified needs/problems\n" ++
  "8. objections: list of concerns mentioned\n" ++
  "9. next_best_action: recommended follow-up action\n" ++
  "10. reasoning: brief explanation of the score\n\n" ++
  "Output as JSON only."

/-- The fallback dict `score_lead` returns on parse failure. -/
def scoreLeadFallback : LeadScore :=
  { score := "warm"
    confidence := 50
    intent_level := 5
    reasoning := "Unable to fully analyze conversation" }

/-- `LeadQualifierAgent.score_lead`: one remote call over the rendered
conversation, `json.loads`, fallback on parse failure. -/
def score_lead (o : Remote) (conversation : List Msg) : LeadScore :=
  let response := o.complete 512 [("user", scoreLeadPrompt (conversationText conversation))]
  match o.parseLead response with
  | some result => result
  | none => scoreLeadFallback

/-- Prompt template of `detect_buying_signals`. -/
def buyingSignalsPrompt (message : String) : String :=
  "Analyze this message for buying signals.\n\n" ++
  "Message: " ++ message ++ "\n\n" ++
  "Identify:\n" ++
  "1. has_buying_signal: true/false\n" ++
  "2. signal_strength: weak/moderate/strong\n" ++
  "3. signals_detected: list of specific buying indicators found\n" ++
  "4. suggested_response_approach: how to respond to move toward conversion\n\n" ++
  "Output as JSON only."

/-- The fallback dict `detect_buying_signals` returns on parse failure. -/
def buyingSignalsFallback : BuyingSignals :=
  { has_buying_signal := false
    signal_strength := "weak"
    signals_detected := [] }

/-- `LeadQualifierAgent.detect_buying_signals`: one remote call,
`json.loads`, fallback on parse failure. -/
def detect_buying_signals (o : Remote) (message : String) : BuyingSignals :=
  let response := o.complete 256 [("user", buyingSignalsPrompt message)]
  match o.parseSignals response with
  | some result => result
  | none => buyingSignalsFallback

end LeadQualifierAgent

/-- The `BUSINESS_INFO` table of `business_config.py`. -/
def BUSINESS_INFO : List (String × String) :=
  [("name", "amilie"),
   ("tagline", "Professional digital designs & VTuber models"),
   ("services", "logos, banners, VTuber models, and digital designs")]

/-- `get_pricing_text` of `business_config.py`: the loop over the static
`PRICING` table rendered out (service names title-cased as Python's
`str.title` does). -/
def get_pricing_text : String :=
  "PRICING:\n" ++
  "- Logo: $50-100\n" ++
  "- Banner: $50-100\n" ++
  "- Vtuber Model 2D: $200-500\n" ++
  "- Vtuber Model 3D: $200-500\n" ++
  "- Other: $200-600\n"

/-- `get_faq_text` of `business_config.py` rendered from the static `FAQ`
table. -/
def get_faq_text : String :=
  "FAQ:\n" ++
  "- Delivery time: 4-5 business days\n" ++
  "- Revisions: 4 revisions included\n" ++
  "- Payment methods: PayPal, Stripe, and other methods\n" ++
  "- Rush orders: Rush orders are not available at the moment\n"

/-- `get_full_context` of `business_config.py`. -/
def get_full_context : String :=
  "\nBusiness: amilie\nServices: logos, banners, VTuber models, and digital designs\n\n" ++
  get_pricing_text ++ "\n" ++ get_faq_text ++ "\n"

namespace QuickResponseAgent

/-- Prompt template of `suggest_replies` (the context line is only added when
the context string is non-empty). -/
def suggestPrompt (count : Nat) (message context : String) : String :=
  "Generate " ++ toString count ++ " different reply suggestions for this Instagram DM.\n" ++
  "Keep replies conversational, helpful, and business-appropriate.\n" ++
  "Each reply should be 1-2 sentences max.\n\n" ++
  "Customer message: " ++ message ++ "\n" ++
  (if context == "" then "" else "Context: " ++ context) ++ "\n\n" ++
  "Output as JSON array of strings only, no other text.\n" ++
  "Example: [\"Reply 1\", \"Reply 2\", \"Reply 3\"]"

/-- `QuickResponseAgent.suggest_replies`: one remote call; on JSON success
the first `count` suggestions, on parse failure a single-element list holding
the raw response text. -/
def suggest_replies (o : Remote) (message context : String) (count : Nat) : List String :=
  let response := o.complete 1024 [("user", suggestPrompt count message context)]
  match o.parseStrList response with
  | some suggestions => suggestions.take count
  | none => [response]

/-- The `tone_instruction` if-chain of `generate_best_reply`. -/
def bestReplyToneInstruction (sentiment_type category lead_type : String) : String :=
  if ["angry", "frustrated"].contains sentiment_type then
    "The customer is upset. Be apologetic, empathetic, and solution-focused. Acknowledge their frustration."
  else if sentiment_type == "positive" then
    "The customer is happy. Be warm and enthusiastic. Build on their positive energy."
  else if lead_type == "hot" then
    "This is a hot lead ready to buy. Be helpful and guide them toward purchase without being pushy."
  else if category == "sales_opportunity" then
    "This is a sales opportunity. Be helpful, highlight value, and gently guide toward a decision."
  else
    "Be friendly, helpful, and professional."

/-- System message of `generate_best_reply`. -/
def bestReplySystem (business_name business_context tone_instruction : String) : String :=
  "You are a helpful Instagram business assistant for " ++ business_name ++ ".\n" ++
  "You help respond to customer DMs professionally and naturally.\n" ++
  "Keep responses short (1-3 sentences), friendly, and actionable.\n\n" ++
  business_context ++ "\n\n" ++ tone_instruction ++ "\n\n" ++
  "IMPORTANT: When asked about pricing, delivery, revisions, or payment - use the EXACT information above."

/-- User message of `generate_best_reply` (the previous-context line is only
added when the summary is non-empty). -/
def bestReplyUser (message sentiment_type category lead_type context_summary : String) : String :=
  "Generate the best reply for this Instagram DM.\n\n" ++
  "Customer message: " ++ message ++ "\n" ++
  "Customer sentiment: " ++ sentiment_type ++ "\n" ++
  "Message category: " ++ category ++ "\n" ++
  "Lead score: " ++ lead_type ++ "\n" ++
  (if context_summary == "" then "" else "Previous context: " ++ context_summary) ++ "\n\n" ++
  "IMPORTANT: Reply in ENGLISH. Write a natural, helpful response. Only output the reply message, nothing else."

/-- `QuickResponseAgent.generate_best_reply`: one remote call with a system
and a user message; the raw completion is the reply (no fallback — the
`business_info` argument is accepted but, as in the source, never used). -/
def generate_best_reply (o : Remote) (message : String) (sentiment : SentimentResult)
    (lead_score : LeadScore) (context_summary : String)
    (business_info : List (String × String)) : String :=
  let business_name := (((BUSINESS_INFO.find? (fun p => p.1 == "name")).map (fun p => p.2)).getD "amilie")
  let business_context := get_full_context
  let sentiment_type := sentiment.sentiment
  let category := sentiment.category
  let lead_type := lead_score.score
  let tone_instruction := bestReplyToneInstruction sentiment_type category lead_type
  let _ := business_info
  o.complete 300
    [("system", bestReplySystem business_name business_context tone_instruction),
     ("user", bestReplyUser message sentiment_type category lead_type context_summary)]

end QuickResponseAgent

/-- The result dict of `process_message` (`message_id` is the extra key
`get_inbox_overview` adds to each analysis; `process_message` itself leaves
it absent). -/
structure ProcessResult where
  client_id : String
  original_message : String
  translated_message : String
  detected_language : String
  sentiment : SentimentResult
  lead_qualification : LeadScore
  buying_signals : BuyingSignals
  client_context : MemoryAgent.Context
  suggested_responses : List String
  requires_immediate_attention : Bool
  recommended_action : String
  message_id : Option String
deriving Repr, DecidableEq

/-- An inbox entry handed to `get_inbox_overview`. -/
structure InboxMsg where
  id : Option String
  client_id : String
  content : String
deriving Repr, DecidableEq

/-- The summary dict of `get_inbox_overview`. -/
structure InboxSummary where
  total_messages : Nat
  urgent : Nat
  hot_leads : Nat
  complaints : Nat
  prioritized_inbox : List ProcessResult
deriving Repr, DecidableEq

/-- The result dict of `auto_reply`. -/
structure AutoReplyResult where
  client_id : String
  original_message : String
  detected_language : String
  sentiment : String
  priority : Nat
  lead_score : String
  auto_reply : String
  analysis : ProcessResult
deriving Repr, DecidableEq

namespace AgentOrchestrator

/-- `_get_recommended_action`: the sequential `if` chain of
`orchestrator.py`. -/
def _get_recommended_action (sentiment : SentimentResult) (lead : LeadScore)
    (signals : BuyingSignals) : String :=
  if sentiment.requires_immediate_attention then
    "URGENT: Respond immediately - customer needs attention"
  else if signals.signal_strength == "strong" then
    "HOT LEAD: Strong buying signal detected - prioritize closing"
  else if lead.score == "hot" then
    "Ready to buy - present offer and close"
  else if sentiment.category == "complaint" then
    "Address complaint promptly - risk of losing customer"
  else if lead.score == "warm" then
    "Nurture lead - provide value and build relationship"
  else if sentiment.category == "sales_opportunity" then
    "Sales opportunity - qualify further and present value"
  else
    "Respond helpfully - standard inquiry"

/-- `process_message`: the eight pipeline steps of `orchestrator.py`.  In the
source, `history = context.get("recent_history", [])` aliases the list stored
inside `context`, so `history.append({...})` also mutates
`context["recent_history"]`; the embedding makes that in-place mutation
explicit as `mutated_context`, which is what the returned result carries. -/
def process_message (s : MemState) (o : Remote) (message client_id : String)
    (save_to_memory : Bool) : Except StorageError (MemState × ProcessResult) := do
  let context := MemoryAgent.get_context s client_id
  let translation := TranslatorAgent.translate o message PREFERRED_LANGUAGE
  let detected_language := translation.source_language
  let translated_message := translation.translated
  let sentiment_analysis := SentimentAgent.analyze o translated_message
  let history := context.recent_history ++
    [{ role := "client", content := translated_message, timestamp := none }]
  let mutated_context := { context with recent_history := history }
  let lead_score := LeadQualifierAgent.score_lead o history
  let suggestions := QuickResponseAgent.suggest_replies o translated_message context.summary 3
  let buying_signals := LeadQualifierAgent.detect_buying_signals o translated_message
  let s ←
    if save_to_memory then do
      let s ← MemoryAgent.save_message s client_id "client" message "instagram"
      let s ← MemoryAgent.save_client s client_id none (some detected_language)
      MemoryAgent.update_lead_score s client_id lead_score.score
    else
      pure s
  pure (s,
    { client_id := client_id
      original_message := message
      translated_message := translated_message
      detected_language := detected_language
      sentiment := sentiment_analysis
      lead_qualification := lead_score
      buying_signals := buying_signals
      client_context := mutated_context
      suggested_responses := suggestions
      requires_immediate_attention := sentiment_analysis.requires_immediate_attention
      recommended_action := _get_recommended_action sentiment_analysis lead_score buying_signals
      message_id := none })

/-- The Python sort key of `get_inbox_overview`:
`(requires_immediate_attention, sentiment priority, lead intent_level)`. -/
def inboxKey (a : ProcessResult) : Bool × Nat × Nat :=
  (a.requires_immediate_attention, a.sentiment.priority, a.lead_qualification.intent_level)

/-- Lexicographic order on the sort key (Python tuple comparison, with
`False < True`). -/
def keyLe : Bool × Nat × Nat → Bool × Nat × Nat → Bool
  | (u₁, p₁, i₁), (u₂, p₂, i₂) =>
    (decide (u₁.toNat < u₂.toNat)) ||
      (u₁ == u₂ && ((decide (p₁ < p₂)) || (p₁ == p₂ && decide (i₁ ≤ i₂))))

/-- `list.sort(key=..., reverse=True)` orders descending by the key; as a
stable sort it keeps the original order of key-equal entries, which the
boolean relation below (`key a` is lexicographically at least `key b`)
reproduces under a stable `mergeSort`. -/
def inboxGe (a b : ProcessResult) : Bool :=
  keyLe (inboxKey b) (inboxKey a)

/-- The loop of `get_inbox_overview`: run `process_message` without
persistence over each inbox entry and tag each analysis with its message
id. -/
def analyzeBatch (s : MemState) (o : Remote) :
    List InboxMsg → Except StorageError (MemState × List ProcessResult)
  | [] => .ok (s, [])
  | msg :: rest => do
    let (s₁, analysis) ← process_message s o msg.content msg.client_id false
    let (s₂, more) ← analyzeBatch s₁ o rest
    pure (s₂, { analysis with message_id := msg.id } :: more)

/-- `get_inbox_overview`: analyze the batch without persistence, sort it
descending by the key tuple (stable), and aggregate the counts. -/
def get_inbox_overview (s : MemState) (o : Remote) (messages : List InboxMsg) :
    Except StorageError (MemState × InboxSummary) := do
  let (s₁, analyzed) ← analyzeBatch s o messages
  let sorted := analyzed.mergeSort inboxGe
  pure (s₁,
    { total_messages := sorted.length
      urgent := (sorted.filter (fun m => m.requires_immediate_attention)).length
      hot_leads := (sorted.filter (fun m => m.lead_qualification.score == "hot")).length
      complaints := (sorted.filter (fun m => m.sentiment.category == "complaint")).length
      prioritized_inbox := sorted })

/-- `auto_reply`: full processing with persistence, tone chosen by the
sentiment/lead precedence, best-reply generation, translation back into the
client's language when it is not `"en"`, tone adjustment as the last text
transformation, and persistence of the final reply as an assistant turn. -/
def auto_reply (s : MemState) (o : Remote) (message client_id tone : String)
    (business_info : List (String × String)) :
    Except StorageError (MemState × AutoReplyResult) := do
  let (s₁, analysis) ← process_message s o message client_id true
  let client_lang := analysis.detected_language
  let sentiment := analysis.sentiment
  let lead_score := analysis.lead_qualification
  let context := analysis.client_context
  let tone :=
    if ["angry", "frustrated"].contains sentiment.sentiment then "professional"
    else if lead_score.score == "hot" then "persuasive"
    else tone
  let best_response := QuickResponseAgent.generate_best_reply o analysis.translated_message
    sentiment lead_score context.summary business_info
  let final_response :=
    if client_lang != "en" then TranslatorAgent.translate_for_client o best_response client_lang
    else best_response
  let final_response := TranslatorAgent.adjust_tone o final_response tone
  let s₂ ← MemoryAgent.save_message s₁ client_id "assistant" final_response "instagram"
  pure (s₂,
    { client_id := client_id
      original_message := message
      detected_language := client_lang
      sentiment := sentiment.sentiment
      priority := sentiment.priority
      lead_score := lead_score.score
      auto_reply := final_response
      analysis := analysis })

end AgentOrchestrator

/-- A present optional field rendered into at most one summary part (absent
and empty values are skipped, matching Python truthiness). -/
def presentString (s : Option String) (render : String → String) : List String :=
  match s with
  | some v => if v == "" then [] else [render v]
  | none => []

/-- The context summary as the spec words it (section 4.1 `getContext`): the
join, with separator `" | "`, of the present fields in the fixed order client
name, language, lead score, each detail key:value, order count plus last
order (product and status), history message count; the fixed marker when
nothing is present. -/
def contextSummarySpec (client : Option ClientRow) (details : List (String × String))
    (history : List Msg) (orders : List OrderView) : String :=
  let clientParts :=
    match client with
    | none => []
    | some c =>
        presentString c.name (fun n => "Client: " ++ n) ++
        presentString c.language (fun l => "Language: " ++ l) ++
        presentString c.lead_score (fun v => "Lead score: " ++ v)
  let detailParts := details.map (fun p => p.1 ++ ": " ++ p.2)
  let orderParts :=
    match orders with
    | [] => []
    | last :: _ =>
        ["Orders: " ++ toString orders.length ++ " total",
         "Last order: " ++ last.product ++ " (" ++ last.status ++ ")"]
  let historyParts :=
    match history with
    | [] => []
    | _ => ["Conversation history: " ++ toString history.length ++ " messages"]
  let parts := clientParts ++ detailParts ++ orderParts ++ historyParts
  if parts.isEmpty then "New client, no history" else String.intercalate " | " parts

/-- A sequence of `save_detail` calls `(client_id, key, value)` applied in
order. -/
def applyDetails (s : MemState) (ops : List (String × String × String)) : MemState :=
  ops.foldl (fun t op => MemoryAgent.save_detailPure t op.1 op.2.1 op.2.2) s

/-- The value of the most recent operation in `ops` for exactly `(c, k)`,
if any. -/
def lastSet : List (String × String × String) → String → String → Option String
  | [], _, _ => none
  | op :: rest, c, k =>
      match lastSet rest c k with
      | some v => some v
      | none => if op.1 == c && op.2.1 == k then some op.2.2 else none

/-- The `client_details` table holds at most one row per `(client_id, key)`
pair — the invariant `save_detail`'s check-then-update/insert logic
maintains. -/
def detailInv (s : MemState) : Prop :=
  ∀ c k, (s.client_details.filter (fun d => d.client_id == c && d.key == k)).length ≤ 1

/-- The `clients` table holds at most one row per `client_id` (its primary
key). -/
def clientInv (s : MemState) : Prop :=
  ∀ cid, (s.clients.filter (fun r => r.client_id == cid)).length ≤ 1

/-- A remote capability whose completions never parse as JSON (every parse
falls back) and whose language detection always answers `"en"`. -/
def noParseRemote : Remote :=
  { complete := fun _ _ => "Sure, happy to help!"
    detect := fun _ => "en"
    parseSentiment := fun _ => none
    parseLead := fun _ => none
    parseSignals := fun _ => none
    parseStrList := fun _ => none }

/-- A store holding two messages of client `"c1"` that share one timestamp
(two inserts within the same `CURRENT_TIMESTAMP` second). -/
def tieMem : MemState :=
  { emptyMem with
    conversations :=
      [{ id := 0, client_id := "c1", role := "client", content := "first", timestamp := 5,
         platform := "instagram" },
       { id := 1, client_id := "c1", role := "client", content := "second", timestamp := 5,
         platform := "instagram" }]
    nextConvId := 2
    clock := 6 }
/-- C1: `_get_recommended_action` picks exactly one action by first-match
precedence in the fixed order: immediate-attention flag, strong buying
signal, hot lead score, complaint category, warm lead score,
sales-opportunity category, default standard-inquiry message; in particular
when `requires_immediate_attention` is true the urgent action is returned no
matter what the lead score or signals say. -/
theorem C1_recommended_action_precedence (sentiment : SentimentResult) (lead : LeadScore)
    (signals : BuyingSignals) :
    (sentiment.requires_immediate_attention = true →
      AgentOrchestrator._get_recommended_action sentiment lead signals =
        "URGENT: Respond immediately - customer needs attention") ∧
    (sentiment.requires_immediate_attention = false → signals.signal_strength = "strong" →
      AgentOrchestrator._get_recommended_action sentiment lead signals =
        "HOT LEAD: Strong buying signal detected - prioritize closing") ∧
    (sentiment.requires_immediate_attention = false → signals.signal_strength ≠ "strong" →
      lead.score = "hot" →
      AgentOrchestrator._get_recommended_action sentiment lead signals =
        "Ready to buy - present offer and close") ∧
    (sentiment.requires_immediate_attention = false → signals.signal_strength ≠ "strong" →
      lead.score ≠ "hot" → sentiment.category = "complaint" →
      AgentOrchestrator._get_recommended_action sentiment lead signals =
        "Address complaint promptly - risk of losing customer") ∧
    (sentiment.requires_immediate_attention = false → signals.signal_strength ≠ "strong" →
      lead.score ≠ "hot" → sentiment.category ≠ "complaint" → lead.score = "warm" →
      AgentOrchestrator._get_recommended_action sentiment lead signals =
        "Nurture lead - provide value and build relationship") ∧
    (sentiment.requires_immediate_attention = false → signals.signal_strength ≠ "strong" →
      lead.score ≠ "hot" → sentiment.category ≠ "complaint" → lead.score ≠ "warm" →
      sentiment.category = "sales_opportunity" →
      AgentOrchestrator._get_recommended_action sentiment lead signals =
        "Sales opportunity - qualify further and present value") ∧
    (sentiment.requires_immediate_attention = false → signals.signal_strength ≠ "strong" →
      lead.score ≠ "hot" → sentiment.category ≠ "complaint" → lead.score ≠ "warm" →
      sentiment.category ≠ "sales_opportunity" →
      AgentOrchestrator._get_recommended_action sentiment lead signals =
        "Respond helpfully - standard inquiry") ∧
    AgentOrchestrator._get_recommended_action sentiment lead signals ∈
      ["URGENT: Respond immediately - customer needs attention",
       "HOT LEAD: Strong buying signal detected - prioritize closing",
       "Ready to buy - present offer and close",
       "Address complaint promptly - risk of losing customer",
       "Nurture lead - provide value and build relationship",
       "Sales opportunity - qualify further and present value",
       "Respond helpfully - standard inquiry"] := by
  unfold AgentOrchestrator._get_recommended_action
  refine ⟨?_, ?_, ?_, ?_, ?_, ?_, ?_, ?_⟩
  all_goals try (intros; simp_all)
  repeat' split
  all_goals simp_all

/-- C5: when the sentiment completion fails to parse as JSON, `analyze`
returns (as a value, not an exception) exactly the deterministic fallback
with neutral sentiment, priority 5, category general_inquiry, no immediate
attention, and the input truncated to 100 characters as summary. -/
theorem C5_sentiment_parse_fallback (o : Remote) (message : String)
    (h : o.parseSentiment (o.complete 256 [("user", SentimentAgent.analyzePrompt message)]) =
      none) :
    SentimentAgent.analyze o message =
      { sentiment := "neutral"
        priority := 5
        category := "general_inquiry"
        requires_immediate_attention := false
        summary := message.take 100 } := by
  simp [SentimentAgent.analyze, h, SentimentAgent.analyzeFallback]

/-- C5 witness: a concrete remote whose completions never parse as JSON. -/
theorem C5_sentiment_parse_fallback_witness :
    SentimentAgent.analyze noParseRemote "Hola, how much is a logo?" =
      { sentiment := "neutral"
        priority := 5
        category := "general_inquiry"
        requires_immediate_attention := false
        summary := ("Hola, how much is a logo?").take 100 } :=
  C5_sentiment_parse_fallback noParseRemote "Hola, how much is a logo?" rfl
/-- Whatever `String.intercalate.go` appends, the accumulator stays a prefix
of the result. -/
theorem intercalate_go_append (sep : String) :
    ∀ (t : List String) (acc : String), ∃ r, String.intercalate.go acc sep t = acc ++ r
  | [], acc => ⟨"", by simp [String.intercalate.go]⟩
  | a :: t, acc => by
    obtain ⟨r, hr⟩ := intercalate_go_append sep t (acc ++ sep ++ a)
    refine ⟨sep ++ a ++ r, ?_⟩
    have hgo : String.intercalate.go acc sep (a :: t) =
        String.intercalate.go (acc ++ sep ++ a) sep t := rfl
    rw [hgo, hr]
    simp [String.append_assoc]

/-- Joining a list with two known leading entries yields a string that
extends their joined form. -/
theorem intercalate_two_head (a b : String) (t : List String) :
    ∃ r, String.intercalate " | " (a :: b :: t) = (a ++ " | " ++ b) ++ r := by
  obtain ⟨r, hr⟩ := intercalate_go_append " | " t (a ++ " | " ++ b)
  refine ⟨r, ?_⟩
  have hgo : String.intercalate " | " (a :: b :: t) =
      String.intercalate.go (a ++ " | " ++ b) " | " t := rfl
  rw [hgo, hr]

/-- C7: the `getContext` summary is the fixed-order concatenation of the
present fields joined with `" | "` (stated as agreement with
`contextSummarySpec`, a second rendering of the spec's wording); for a
brand-new client it is the fixed marker `"New client, no history"`, and for
a client with name `"Ana"` and language `"es"` it begins with
`"Client: Ana | Language: es"`. -/
theorem C7_context_summary :
    (∀ cid, (MemoryAgent.get_context emptyMem cid).summary = "New client, no history") ∧
    (∀ client details history orders,
      MemoryAgent._generate_context_summary client details history orders =
        contextSummarySpec client details history orders) ∧
    (∀ (client : ClientRow) details history orders,
      client.name = some "Ana" → client.language = some "es" →
      ∃ rest,
        MemoryAgent._generate_context_summary (some client) details history orders =
          "Client: Ana | Language: es" ++ rest) := by
  refine ⟨?_, ?_, ?_⟩
  · intro cid
    simp [MemoryAgent.get_context, MemoryAgent.get_client, MemoryAgent.get_all_details,
      MemoryAgent.get_history, MemoryAgent.get_orders, MemoryAgent.orderByTimestampDesc,
      MemoryAgent.orderOrdersDesc, emptyMem, MemoryAgent._generate_context_summary]
  · intro client details history orders
    cases client <;> cases orders <;> cases history <;>
      simp [MemoryAgent._generate_context_summary, contextSummarySpec, presentString]
  · intro client details history orders hname hlang
    obtain ⟨cid', cname, clang, ccr, clc, csc, cno⟩ := client
    change cname = some "Ana" at hname
    change clang = some "es" at hlang
    subst hname
    subst hlang
    have hsum :
        MemoryAgent._generate_context_summary
            (some ⟨cid', some "Ana", some "es", ccr, clc, csc, cno⟩) details history orders =
          String.intercalate " | " ("Client: Ana" :: "Language: es" ::
            ((match csc with
              | some sc => if sc == "" then [] else ["Lead score: " ++ sc]
              | none => []) ++
              details.map (fun p => p.1 ++ ": " ++ p.2) ++
              (if orders.isEmpty then []
               else
                 ["Orders: " ++ toString orders.length ++ " total"] ++
                 (match orders.head? with
                  | some last => ["Last order: " ++ last.product ++ " (" ++ last.status ++ ")"]
                  | none => [])) ++
              (if history.isEmpty then []
               else ["Conversation history: " ++ toString history.length ++ " messages"]))) := by
      simp [MemoryAgent._generate_context_summary]
    rw [hsum]
    obtain ⟨r, hr⟩ := intercalate_two_head "Client: Ana" "Language: es" _
    refine ⟨r, ?_⟩
    rw [hr]
    congr 1
theorem save_clientPure_client_details (s : MemState) (cid : String) (n l : Option String) :
    (MemoryAgent.save_clientPure s cid n l).client_details = s.client_details := by
  unfold MemoryAgent.save_clientPure
  split <;> rfl

theorem save_clientPure_nextDetailId (s : MemState) (cid : String) (n l : Option String) :
    (MemoryAgent.save_clientPure s cid n l).nextDetailId = s.nextDetailId := by
  unfold MemoryAgent.save_clientPure
  split <;> rfl

theorem save_clientPure_clock (s : MemState) (cid : String) (n l : Option String) :
    (MemoryAgent.save_clientPure s cid n l).clock = s.clock + 1 := by
  unfold MemoryAgent.save_clientPure
  split <;> rfl

/-- The in-place `UPDATE` of a detail row changes neither its client id nor
its key, so membership in any `(client, key)` selection is unchanged. -/
theorem updDetail_pred (c k v : String) (ts : Nat) (c' k' : String) (d : DetailRow) :
    ((if d.client_id == c && d.key == k then
        { d with value := v, created_at := ts } else d).client_id == c' &&
     (if d.client_id == c && d.key == k then
        { d with value := v, created_at := ts } else d).key == k') =
      (d.client_id == c' && d.key == k') := by
  split <;> rfl

/-- Selecting rows by `(client, key)` commutes with the in-place `UPDATE`. -/
theorem filter_upd_eq (c k v : String) (ts : Nat) (c' k' : String) :
    ∀ l : List DetailRow,
      (l.map (fun d => if d.client_id == c && d.key == k then
          { d with value := v, created_at := ts } else d)).filter
        (fun d => d.client_id == c' && d.key == k') =
      (l.filter (fun d => d.client_id == c' && d.key == k')).map
        (fun d => if d.client_id == c && d.key == k then
          { d with value := v, created_at := ts } else d)
  | [] => rfl
  | d :: l => by
    by_cases h : (d.client_id == c' && d.key == k') = true
    · simp only [List.map_cons, List.filter_cons, updDetail_pred, h, if_true,
        filter_upd_eq c k v ts c' k' l]
    · simp only [List.map_cons, List.filter_cons, updDetail_pred, h, if_false,
        filter_upd_eq c k v ts c' k' l, Bool.false_eq_true]

theorem get_detail_save_same (s : MemState) (c k v : String) (hinv : detailInv s) :
    MemoryAgent.get_detail (MemoryAgent.save_detailPure s c k v) c k = some v := by
  unfold MemoryAgent.save_detailPure
  dsimp only
  rw [save_clientPure_client_details, save_clientPure_nextDetailId, save_clientPure_clock]
  split
  · next hempty =>
    rw [List.isEmpty_iff] at hempty
    unfold MemoryAgent.get_detail
    simp only [List.filter_append, hempty]
    simp [MemoryAgent.orderDetailsDesc]
  · next hne =>
    rw [List.isEmpty_iff] at hne
    unfold MemoryAgent.get_detail
    have hone : (s.client_details.filter (fun d => d.client_id == c && d.key == k)).length = 1 := by
      have h1 := hinv c k
      have h2 : 0 < (s.client_details.filter (fun d => d.client_id == c && d.key == k)).length :=
        List.length_pos.mpr hne
      omega
    obtain ⟨r, hr⟩ := List.length_eq_one.mp hone
    have hpr : r.client_id = c ∧ r.key = k := by
      have hmem : r ∈ s.client_details.filter (fun d => d.client_id == c && d.key == k) := by
        rw [hr]; exact List.mem_singleton_self r
      simpa using (List.mem_filter.mp hmem).2
    rw [show (s.clock + 1) = (MemoryAgent.save_clientPure s c none none).clock from
      (save_clientPure_clock s c none none).symm] at *
    rw [filter_upd_eq, hr]
    simp [hpr.1, hpr.2, MemoryAgent.orderDetailsDesc]

theorem get_detail_save_other (s : MemState) (c k v c' k' : String)
    (h : ¬(c = c' ∧ k = k')) :
    MemoryAgent.get_detail (MemoryAgent.save_detailPure s c k v) c' k' =
      MemoryAgent.get_detail s c' k' := by
  unfold MemoryAgent.save_detailPure
  dsimp only
  rw [save_clientPure_client_details, save_clientPure_nextDetailId, save_clientPure_clock]
  split
  · unfold MemoryAgent.get_detail
    simp only [List.filter_append]
    have hnil : (List.filter (fun d => d.client_id == c' && d.key == k')
        [({ id := s.nextDetailId, client_id := c, key := k, value := v,
            created_at := s.clock + 1 } : DetailRow)]) = [] := by
      simp only [List.filter]
      by_cases hc : c = c'
      · subst hc
        have hk : ¬k = k' := fun hk => h ⟨rfl, hk⟩
        have hkk : (k == k') = false := by
          simpa using hk
        simp [hkk]
      · have hcc : (c == c') = false := by
          simpa using hc
        simp [hcc]
    rw [hnil, List.append_nil]
  · unfold MemoryAgent.get_detail
    rw [filter_upd_eq]
    have hid : ∀ d ∈ s.client_details.filter (fun d => d.client_id == c' && d.key == k'),
        (if d.client_id == c && d.key == k then
          { d with value := v, created_at := s.clock + 1 }
         else d) = d := by
      intro d hd
      have hd' : d.client_id = c' ∧ d.key = k' := by
        simpa using (List.mem_filter.mp hd).2
      have : ¬(d.client_id = c ∧ d.key = k) := by
        intro hck
        exact h ⟨hd'.1 ▸ hck.1.symm ▸ rfl, hd'.2 ▸ hck.2.symm ▸ rfl⟩
      simp [this]
  -- replace the update map by the identity on the selected rows
    rw [List.map_congr_left hid, List.map_id']

theorem detailInv_save (s : MemState) (c k v : String) (hinv : detailInv s) :
    detailInv (MemoryAgent.save_detailPure s c k v) := by
  intro c' k'
  unfold MemoryAgent.save_detailPure
  dsimp only
  rw [save_clientPure_client_details, save_clientPure_nextDetailId, save_clientPure_clock]
  split
  · next hempty =>
    rw [List.isEmpty_iff] at hempty
    simp only [List.filter_append, List.length_append]
    by_cases hck : c = c' ∧ k = k'
    · obtain ⟨rfl, rfl⟩ := hck
      simp [hempty]
    · have hnil : (List.filter (fun d => d.client_id == c' && d.key == k')
          [({ id := s.nextDetailId, client_id := c, key := k, value := v,
              created_at := s.clock + 1 } : DetailRow)]) = [] := by
        simp only [List.filter]
        by_cases hc : c = c'
        · subst hc
          have hk : ¬k = k' := fun hk => hck ⟨rfl, hk⟩
          have hkk : (k == k') = false := by simpa using hk
          simp [hkk]
        · have hcc : (c == c') = false := by simpa using hc
          simp [hcc]
      rw [hnil]
      simpa using hinv c' k'
  · simp only [filter_upd_eq, List.length_map]
    exact hinv c' k'

theorem get_detail_empty (c k : String) : MemoryAgent.get_detail emptyMem c k = none := by
  simp [MemoryAgent.get_detail, MemoryAgent.orderDetailsDesc, emptyMem]

theorem applyDetails_last_write (ops : List (String × String × String)) :
    ∀ (s : MemState), detailInv s → ∀ c k,
      detailInv (applyDetails s ops) ∧
      MemoryAgent.get_detail (applyDetails s ops) c k =
        (match lastSet ops c k with
         | some v => some v
         | none => MemoryAgent.get_detail s c k) := by
  induction ops with
  | nil =>
    intro s hinv c k
    exact ⟨hinv, rfl⟩
  | cons op rest ih =>
    intro s hinv c k
    have hinv' := detailInv_save s op.1 op.2.1 op.2.2 hinv
    have hstep : applyDetails s (op :: rest) =
        applyDetails (MemoryAgent.save_detailPure s op.1 op.2.1 op.2.2) rest := rfl
    obtain ⟨ha, hb⟩ := ih (MemoryAgent.save_detailPure s op.1 op.2.1 op.2.2) hinv' c k
    rw [hstep]
    refine ⟨ha, ?_⟩
    rw [hb]
    cases hl : lastSet rest c k with
    | some v => simp [lastSet, hl]
    | none =>
      simp only [lastSet, hl]
      by_cases hck : (op.1 == c && op.2.1 == k) = true
      · have hc : op.1 = c ∧ op.2.1 = k := by simpa using hck
        obtain ⟨rfl, rfl⟩ := hc
        simp only [hck, if_true]
        exact get_detail_save_same s op.1 op.2.1 op.2.2 hinv
      · have hne : ¬(op.1 = c ∧ op.2.1 = k) := by
          intro hcc
          exact hck (by simp [hcc.1, hcc.2])
        simp only [hck]
        simp only [Bool.false_eq_true, if_false]
        exact get_detail_save_other s op.1 op.2.1 op.2.2 c k hne

/-- C3 (amended): after any sequence of `setDetail` calls starting from a
fresh store, `getDetail` returns the value of the most recent call for that
exact `(client, key)` pair (absent when there was none); earlier values are
not retained — the table keeps at most one row per `(client, key)` pair
because the existing row is overwritten in place. -/
theorem C3_detail_last_write_wins (ops : List (String × String × String)) (c k : String) :
    detailInv (applyDetails emptyMem ops) ∧
    MemoryAgent.get_detail (applyDetails emptyMem ops) c k = lastSet ops c k := by
  have hinv0 : detailInv emptyMem := by
    intro c' k'
    simp [emptyMem]
  obtain ⟨ha, hb⟩ := applyDetails_last_write ops emptyMem hinv0 c k
  refine ⟨ha, ?_⟩
  rw [hb]
  cases hl : lastSet ops c k with
  | some v => rfl
  | none => exact get_detail_empty c k

/-- C3 counterexample: two `setDetail` calls for the same key leave exactly
one stored row holding the second value; the first value `"100"` is no
longer in storage, refuting "prior values remain in storage (shadowed but
retained)". -/
theorem C3_shadowing_counterexample :
    (applyDetails emptyMem [("c1", "budget", "100"), ("c1", "budget", "300")]).client_details.map
        (fun d => d.value) = ["300"] ∧
    ¬ ("100" ∈ (applyDetails emptyMem
        [("c1", "budget", "100"), ("c1", "budget", "300")]).client_details.map
          (fun d => d.value)) ∧
    MemoryAgent.get_detail
        (applyDetails emptyMem [("c1", "budget", "100"), ("c1", "budget", "300")])
        "c1" "budget" = some "300" := by
  refine ⟨by decide, by decide, ?_⟩
  simp [applyDetails, MemoryAgent.save_detailPure, MemoryAgent.save_clientPure, emptyMem,
    MemoryAgent.get_detail, MemoryAgent.orderDetailsDesc]


theorem option_or_self (a : Option α) : a.or a = a := by
  cases a <;> rfl

theorem option_or_or (a b : Option α) : a.or (a.or b) = a.or b := by
  cases a <;> rfl

/-- The `ON CONFLICT ... DO UPDATE` row rewrite keeps the primary key, so a
`find?` by client id commutes with it. -/
theorem find?_upd_clients (cid : String) (g : ClientRow → ClientRow)
    (hg : ∀ r, (g r).client_id = r.client_id) :
    ∀ l : List ClientRow,
      (l.map (fun r => if r.client_id == cid then g r else r)).find?
          (fun r => r.client_id == cid) =
        (l.find? (fun r => r.client_id == cid)).map g
  | [] => rfl
  | r :: l => by
    by_cases h : r.client_id = cid
    · simp [List.find?_cons, h, hg]
    · have hb : (r.client_id == cid) = false := by simpa using h
      have hif : (if r.client_id == cid then g r else r) = r := by simp [hb]
      rw [List.map_cons, hif]
      simp only [List.find?_cons, hb]
      exact find?_upd_clients cid g hg l

/-- Selecting client rows by id commutes with the conflict-update rewrite. -/
theorem filter_upd_clients (cid cid' : String) (g : ClientRow → ClientRow)
    (hg : ∀ r, (g r).client_id = r.client_id) :
    ∀ l : List ClientRow,
      (l.map (fun r => if r.client_id == cid then g r else r)).filter
          (fun r => r.client_id == cid') =
        (l.filter (fun r => r.client_id == cid')).map
          (fun r => if r.client_id == cid then g r else r)
  | [] => rfl
  | r :: l => by
    have hpred : ((if r.client_id == cid then g r else r).client_id == cid') =
        (r.client_id == cid') := by
      split
      · next hr => rw [hg]
      · rfl
    simp only [List.map_cons, List.filter_cons, hpred]
    by_cases h : (r.client_id == cid') = true
    · simp only [h, if_true, List.map_cons, filter_upd_clients cid cid' g hg l]
    · simp only [h, Bool.false_eq_true, if_false, filter_upd_clients cid cid' g hg l]

theorem clientInv_save (s : MemState) (cid : String) (n l : Option String)
    (hinv : clientInv s) : clientInv (MemoryAgent.save_clientPure s cid n l) := by
  intro cid'
  unfold MemoryAgent.save_clientPure
  cases hfind : s.clients.find? (fun r => r.client_id == cid) with
  | none =>
    dsimp only
    rw [List.filter_append]
    by_cases hc : cid = cid'
    · subst hc
      have hnil : s.clients.filter (fun r => r.client_id == cid) = [] := by
        rw [List.filter_eq_nil_iff]
        intro r hr
        exact (List.find?_eq_none.mp hfind) r hr
      simp [hnil]
    · have hcc : (cid == cid') = false := by simpa using hc
      simp only [List.filter, hcc]
      simpa using hinv cid'
  | some r =>
    dsimp only
    rw [filter_upd_clients cid cid'
      (fun r => { r with name := n.or r.name, language := l.or r.language, last_contact := some s.clock }) (fun r => rfl)]
    simpa using hinv cid'

theorem get_client_save_absent (s : MemState) (cid : String) (n l : Option String)
    (h : MemoryAgent.get_client s cid = none) :
    MemoryAgent.get_client (MemoryAgent.save_clientPure s cid n l) cid =
      some { client_id := cid
             name := n
             language := l
             created_at := s.clock
             last_contact := some s.clock
             lead_score := none
             notes := none } := by
  unfold MemoryAgent.get_client at h ⊢
  unfold MemoryAgent.save_clientPure
  rw [h]
  dsimp only
  rw [List.find?_append, h]
  simp [List.find?_cons]

theorem get_client_save_present (s : MemState) (cid : String) (n l : Option String)
    (r0 : ClientRow) (h : MemoryAgent.get_client s cid = some r0) :
    MemoryAgent.get_client (MemoryAgent.save_clientPure s cid n l) cid =
      some { r0 with
             name := n.or r0.name
             language := l.or r0.language
             last_contact := some s.clock } := by
  unfold MemoryAgent.get_client at h ⊢
  unfold MemoryAgent.save_clientPure
  rw [h]
  dsimp only
  rw [find?_upd_clients cid
    (fun r => { r with name := n.or r.name, language := l.or r.language, last_contact := some s.clock }) (fun r => rfl), h]
  have hr0 := List.find?_some h
  have hr0' : (r0.client_id == cid) = true := by simpa using hr0
  simp [hr0']

theorem count_after_save (s : MemState) (cid : String) (n l : Option String)
    (hinv : clientInv s) :
    ((MemoryAgent.save_clientPure s cid n l).clients.filter
      (fun r => r.client_id == cid)).length = 1 := by
  unfold MemoryAgent.save_clientPure
  cases hfind : s.clients.find? (fun r => r.client_id == cid) with
  | none =>
    dsimp only
    rw [List.filter_append]
    have hnil : s.clients.filter (fun r => r.client_id == cid) = [] := by
      rw [List.filter_eq_nil_iff]
      intro r hr
      exact (List.find?_eq_none.mp hfind) r hr
    simp [hnil]
  | some r =>
    dsimp only
    rw [filter_upd_clients cid cid
      (fun r => { r with name := n.or r.name, language := l.or r.language, last_contact := some s.clock }) (fun r => rfl)]
    rw [List.length_map]
    have hle := hinv cid
    have hr := List.find?_some hfind
    have hr' : (r.client_id == cid) = true := by simpa using hr
    have hmem : r ∈ s.clients.filter (fun r => r.client_id == cid) :=
      List.mem_filter.mpr ⟨List.mem_of_find?_eq_some hfind, hr'⟩
    have hpos : 0 < (s.clients.filter (fun r => r.client_id == cid)).length :=
      List.length_pos.mpr (fun hnil => by rw [hnil] at hmem; cases hmem)
    omega

/-- C10: `upsertClient` creates the row if absent (with the given fields and
a fresh `last_contact`), otherwise updates only the non-null fields while
refreshing `last_contact`; it keeps one row per client id, and repeating the
call with the same fields only refreshes `last_contact`, which never moves
backwards. -/
theorem C10_upsert_client (s : MemState) (cid : String) (name language : Option String)
    (hinv : clientInv s) :
    (MemoryAgent.get_client s cid = none →
      MemoryAgent.get_client (MemoryAgent.save_clientPure s cid name language) cid =
        some { client_id := cid
               name := name
               language := language
               created_at := s.clock
               last_contact := some s.clock
               lead_score := none
               notes := none }) ∧
    (∀ r0, MemoryAgent.get_client s cid = some r0 →
      MemoryAgent.get_client (MemoryAgent.save_clientPure s cid name language) cid =
        some { r0 with
               name := name.or r0.name
               language := language.or r0.language
               last_contact := some s.clock }) ∧
    clientInv (MemoryAgent.save_clientPure s cid name language) ∧
    ((MemoryAgent.save_clientPure (MemoryAgent.save_clientPure s cid name language) cid name
        language).clients.filter (fun r => r.client_id == cid)).length = 1 ∧
    (∀ r1,
      MemoryAgent.get_client (MemoryAgent.save_clientPure s cid name language) cid = some r1 →
      MemoryAgent.get_client (MemoryAgent.save_clientPure (MemoryAgent.save_clientPure s cid name
          language) cid name language) cid =
        some { r1 with
               last_contact := some (MemoryAgent.save_clientPure s cid name language).clock } ∧
      r1.last_contact = some s.clock ∧
      s.clock ≤ (MemoryAgent.save_clientPure s cid name language).clock) := by
  have hinv1 := clientInv_save s cid name language hinv
  refine ⟨get_client_save_absent s cid name language,
    (fun r0 h => get_client_save_present s cid name language r0 h), hinv1,
    count_after_save (MemoryAgent.save_clientPure s cid name language) cid name language hinv1,
    ?_⟩
  intro r1 h1
  have hstep := get_client_save_present (MemoryAgent.save_clientPure s cid name language) cid
    name language r1 h1
  have hshape : r1.name = name.or r1.name ∧ r1.language = language.or r1.language ∧
      r1.last_contact = some s.clock := by
    cases hfind : MemoryAgent.get_client s cid with
    | none =>
      have heq := get_client_save_absent s cid name language hfind
      rw [heq] at h1
      have hr1 := Option.some_injective _ h1
      subst hr1
      exact ⟨(option_or_self name).symm, (option_or_self language).symm, rfl⟩
    | some r0 =>
      have heq := get_client_save_present s cid name language r0 hfind
      rw [heq] at h1
      have hr1 := Option.some_injective _ h1
      subst hr1
      exact ⟨(option_or_or name r0.name).symm, (option_or_or language r0.language).symm, rfl⟩
  refine ⟨?_, hshape.2.2, ?_⟩
  · rw [hstep]
    rw [← hshape.1, ← hshape.2.1]
  · rw [save_clientPure_clock]
    omega

/-- C10 witness: two identical upserts for a fresh client leave exactly one
row. -/
theorem C10_upsert_client_witness :
    ((MemoryAgent.save_clientPure (MemoryAgent.save_clientPure emptyMem "ana" (some "Ana")
        (some "es")) "ana" (some "Ana") (some "es")).clients.filter
      (fun r => r.client_id == "ana")).length = 1 := by
  have h := C10_upsert_client emptyMem "ana" (some "Ana") (some "es")
    (by intro cid; simp [emptyMem])
  exact h.2.2.2.1

theorem save_clientPure_writeFail (s : MemState) (cid : String) (n l : Option String) :
    (MemoryAgent.save_clientPure s cid n l).writeFail = s.writeFail := by
  unfold MemoryAgent.save_clientPure
  split <;> rfl

theorem save_messagePure_writeFail (s : MemState) (cid role content platform : String) :
    (MemoryAgent.save_messagePure s cid role content platform).writeFail = s.writeFail := by
  unfold MemoryAgent.save_messagePure
  dsimp only
  exact save_clientPure_writeFail s cid none none


theorem except_error_bind {ε α β : Type} (e : ε) (f : α → Except ε β) :
    (Except.error e >>= f) = Except.error e := rfl

theorem except_ok_bind {ε α β : Type} (a : α) (f : α → Except ε β) :
    (Except.ok a >>= f) = f a := rfl

theorem except_map_ok {ε α β : Type} (g : α → β) (a : α) :
    (g <$> (Except.ok a : Except ε α)) = Except.ok (g a) := rfl

theorem except_map_error {ε α β : Type} (g : α → β) (e : ε) :
    (g <$> (Except.error e : Except ε α)) = Except.error e := rfl

theorem except_toOption_ok {ε α : Type} (a : α) :
    (Except.ok a : Except ε α).toOption = some a := rfl

theorem except_pure_eq_ok {ε α : Type} (a : α) :
    (pure a : Except ε α) = Except.ok a := rfl

theorem except_isOk_ok {ε α : Type} (a : α) :
    (Except.ok a : Except ε α).isOk = true := rfl

/-- C2 (amended): when any step-8 persistence operation raises
`StorageError`, `process_message` propagates the error and the computed
analysis is not returned; an analysis is returned whenever persistence
succeeds or is not requested. -/
theorem C2_storage_failure (s : MemState) (o : Remote) (message client_id : String) :
    (s.writeFail = true →
      AgentOrchestrator.process_message s o message client_id true =
        Except.error StorageError.ioError) ∧
    (s.writeFail = false →
      (AgentOrchestrator.process_message s o message client_id true).isOk = true) ∧
    (∃ p, AgentOrchestrator.process_message s o message client_id false = Except.ok p) := by
  refine ⟨?_, ?_, ⟨_, rfl⟩⟩
  · intro h
    simp [AgentOrchestrator.process_message, MemoryAgent.save_message, h, except_error_bind,
      except_ok_bind, except_map_ok, except_map_error]
  · intro h
    simp [AgentOrchestrator.process_message, MemoryAgent.save_message,
      MemoryAgent.save_client, MemoryAgent.update_lead_score, h,
      save_messagePure_writeFail, save_clientPure_writeFail, except_error_bind,
      except_ok_bind, except_map_ok, except_map_error, except_isOk_ok]

/-- C2 counterexample: with persistence requested on a store whose writes
fail, `process_message` returns the storage error, not the computed
analysis — refuting "process_message still returns the already-computed
analysis result to the caller". -/
theorem C2_storage_failure_counterexample :
    AgentOrchestrator.process_message brokenMem noParseRemote "Hello" "c1" true =
      Except.error StorageError.ioError := rfl

/-- C2 witness: the failure branch of the amended theorem at a concrete
broken store. -/
theorem C2_storage_failure_witness :
    AgentOrchestrator.process_message brokenMem noParseRemote "Hi" "c1" true =
      Except.error StorageError.ioError :=
  (C2_storage_failure brokenMem noParseRemote "Hi" "c1").1 rfl

/-- C4: at a concrete input the snapshot embedded in the result contains the
transient normalized "client" turn (the source's `history` list aliases
`context["recent_history"]`), while the pre-message snapshot's history is
empty — the returned snapshot is not the pre-message one. -/
theorem C4_snapshot_mutation :
    (AgentOrchestrator.process_message emptyMem noParseRemote "Hola" "c1" false).toOption.map
        (fun p => p.2.client_context.recent_history) =
      some [{ role := "client", content := "Hola", timestamp := none }] ∧
    (MemoryAgent.get_context emptyMem "c1").recent_history = [] := by
  constructor
  · simp [AgentOrchestrator.process_message, MemoryAgent.get_context, MemoryAgent.get_client,
      MemoryAgent.get_all_details, MemoryAgent.get_history, MemoryAgent.get_orders,
      MemoryAgent.orderByTimestampDesc, MemoryAgent.orderOrdersDesc, emptyMem,
      TranslatorAgent.translate, noParseRemote, PREFERRED_LANGUAGE, except_pure_eq_ok,
      except_toOption_ok, except_ok_bind, except_map_ok]
  · simp [MemoryAgent.get_context, MemoryAgent.get_history, MemoryAgent.orderByTimestampDesc,
      emptyMem]
theorem keyLe_refl (x : Bool × Nat × Nat) : AgentOrchestrator.keyLe x x = true := by
  rcases x with ⟨u, p, i⟩
  simp [AgentOrchestrator.keyLe]

theorem keyLe_total (x y : Bool × Nat × Nat) :
    (AgentOrchestrator.keyLe x y || AgentOrchestrator.keyLe y x) = true := by
  rcases x with ⟨u1, p1, i1⟩
  rcases y with ⟨u2, p2, i2⟩
  cases u1 <;> cases u2 <;> simp [AgentOrchestrator.keyLe] <;> omega

theorem keyLe_trans (x y z : Bool × Nat × Nat) (hxy : AgentOrchestrator.keyLe x y = true)
    (hyz : AgentOrchestrator.keyLe y z = true) : AgentOrchestrator.keyLe x z = true := by
  rcases x with ⟨u1, p1, i1⟩
  rcases y with ⟨u2, p2, i2⟩
  rcases z with ⟨u3, p3, i3⟩
  cases u1 <;> cases u2 <;> cases u3 <;>
    simp [AgentOrchestrator.keyLe] at hxy hyz ⊢ <;> omega

theorem inboxGe_total (a b : ProcessResult) :
    (AgentOrchestrator.inboxGe a b || AgentOrchestrator.inboxGe b a) = true :=
  keyLe_total (AgentOrchestrator.inboxKey b) (AgentOrchestrator.inboxKey a)

theorem inboxGe_trans (a b c : ProcessResult) (hab : AgentOrchestrator.inboxGe a b = true)
    (hbc : AgentOrchestrator.inboxGe b c = true) : AgentOrchestrator.inboxGe a c = true :=
  keyLe_trans (AgentOrchestrator.inboxKey c) (AgentOrchestrator.inboxKey b)
    (AgentOrchestrator.inboxKey a) hbc hab

/-- An entry that sorts at least as high as an urgent entry is itself
urgent: the immediate-attention flag is the dominant sort-key component. -/
theorem inboxGe_attn {a b : ProcessResult} (h : AgentOrchestrator.inboxGe a b = true)
    (hb : b.requires_immediate_attention = true) : a.requires_immediate_attention = true := by
  cases ha : a.requires_immediate_attention
  · exfalso
    unfold AgentOrchestrator.inboxGe AgentOrchestrator.keyLe AgentOrchestrator.inboxKey at h
    rw [ha, hb] at h
    simp at h
  · rfl

/-- `process_message` without persistence always succeeds and leaves the
store untouched, so the inbox loop returns all analyses over the unchanged
store. -/
theorem analyzeBatch_ok (o : Remote) :
    ∀ (messages : List InboxMsg) (s : MemState),
      ∃ analyzed, AgentOrchestrator.analyzeBatch s o messages = Except.ok (s, analyzed)
  | [], s => ⟨[], rfl⟩
  | msg :: rest, s => by
    obtain ⟨a, ha⟩ : ∃ a, AgentOrchestrator.process_message s o msg.content msg.client_id false =
        Except.ok (s, a) := ⟨_, rfl⟩
    obtain ⟨rest', hrest⟩ := analyzeBatch_ok o rest s
    refine ⟨{ a with message_id := msg.id } :: rest', ?_⟩
    simp [AgentOrchestrator.analyzeBatch, ha, hrest, except_ok_bind]

/-- C9: `get_inbox_overview` analyzes each message without persistence (the
store comes back unchanged), sorts the analyses descending by the tuple
(requires-immediate-attention, sentiment priority, lead intent level) with a
stable sort — key-equal entries keep their original order, and an urgent
entry sorts before every non-urgent one regardless of priorities — and the
summary counts the urgent, hot-lead and complaint items. -/
theorem C9_inbox_overview (s : MemState) (o : Remote) (messages : List InboxMsg) :
    ∃ analyzed ov,
      AgentOrchestrator.analyzeBatch s o messages = Except.ok (s, analyzed) ∧
      AgentOrchestrator.get_inbox_overview s o messages = Except.ok (s, ov) ∧
      ov.prioritized_inbox = analyzed.mergeSort AgentOrchestrator.inboxGe ∧
      ov.prioritized_inbox.Perm analyzed ∧
      List.Pairwise (fun a b => AgentOrchestrator.inboxGe a b = true) ov.prioritized_inbox ∧
      (∀ a b, AgentOrchestrator.inboxKey a = AgentOrchestrator.inboxKey b →
        [a, b].Sublist analyzed → [a, b].Sublist ov.prioritized_inbox) ∧
      List.Pairwise
        (fun a b => b.requires_immediate_attention = true →
          a.requires_immediate_attention = true)
        ov.prioritized_inbox ∧
      ov.total_messages = analyzed.length ∧
      ov.urgent = (analyzed.filter (fun m => m.requires_immediate_attention)).length ∧
      ov.hot_leads = (analyzed.filter (fun m => m.lead_qualification.score == "hot")).length ∧
      ov.complaints = (analyzed.filter (fun m => m.sentiment.category == "complaint")).length := by
  obtain ⟨analyzed, hbatch⟩ := analyzeBatch_ok o messages s
  have hsorted : List.Pairwise (fun a b => AgentOrchestrator.inboxGe a b = true)
      (analyzed.mergeSort AgentOrchestrator.inboxGe) :=
    List.sorted_mergeSort (fun a b c => inboxGe_trans a b c) inboxGe_total analyzed
  have hperm : (analyzed.mergeSort AgentOrchestrator.inboxGe).Perm analyzed :=
    List.mergeSort_perm analyzed AgentOrchestrator.inboxGe
  refine ⟨analyzed,
    { total_messages := (analyzed.mergeSort AgentOrchestrator.inboxGe).length
      urgent := ((analyzed.mergeSort AgentOrchestrator.inboxGe).filter
        (fun m => m.requires_immediate_attention)).length
      hot_leads := ((analyzed.mergeSort AgentOrchestrator.inboxGe).filter
        (fun m => m.lead_qualification.score == "hot")).length
      complaints := ((analyzed.mergeSort AgentOrchestrator.inboxGe).filter
        (fun m => m.sentiment.category == "complaint")).length
      prioritized_inbox := analyzed.mergeSort AgentOrchestrator.inboxGe },
    hbatch, ?_, rfl, hperm, hsorted, ?_, ?_, ?_, ?_, ?_, ?_⟩
  · simp [AgentOrchestrator.get_inbox_overview, hbatch, except_ok_bind]
  · intro a b hkey hsub
    have hab : AgentOrchestrator.inboxGe a b = true := by
      unfold AgentOrchestrator.inboxGe
      rw [hkey]
      exact keyLe_refl _
    exact List.pair_sublist_mergeSort (fun a b c => inboxGe_trans a b c) inboxGe_total hab hsub
  · exact hsorted.imp (fun h => inboxGe_attn h)
  · simp
  · exact (hperm.filter _).length_eq
  · exact (hperm.filter _).length_eq
  · exact (hperm.filter _).length_eq

theorem update_lead_scorePure_writeFail (s : MemState) (cid score : String) :
    (MemoryAgent.update_lead_scorePure s cid score).writeFail = s.writeFail := rfl

theorem save_clientPure_conversations (s : MemState) (cid : String) (n l : Option String) :
    (MemoryAgent.save_clientPure s cid n l).conversations = s.conversations := by
  unfold MemoryAgent.save_clientPure
  split <;> rfl

/-- With persistence requested on a failing store, `process_message`
propagates the storage error. -/
theorem process_message_fail (s : MemState) (o : Remote) (message client_id : String)
    (h : s.writeFail = true) :
    AgentOrchestrator.process_message s o message client_id true =
      Except.error StorageError.ioError := by
  simp [AgentOrchestrator.process_message, MemoryAgent.save_message, h, except_error_bind,
    except_ok_bind, except_map_ok, except_map_error]

/-- With persistence requested on a healthy store, `process_message`
succeeds. -/
theorem process_message_isOk (s : MemState) (o : Remote) (message client_id : String)
    (h : s.writeFail = false) :
    (AgentOrchestrator.process_message s o message client_id true).isOk = true := by
  simp [AgentOrchestrator.process_message, MemoryAgent.save_message, MemoryAgent.save_client,
    MemoryAgent.update_lead_score, h, save_messagePure_writeFail, save_clientPure_writeFail,
    except_error_bind, except_ok_bind, except_map_ok, except_map_error, except_isOk_ok]

/-- The persisted pipeline state keeps the health of the storage medium. -/
theorem process_message_ok_writeFail (s : MemState) (o : Remote) (message client_id : String)
    (s₁ : MemState) (a : ProcessResult)
    (hpm : AgentOrchestrator.process_message s o message client_id true = Except.ok (s₁, a)) :
    s₁.writeFail = false := by
  cases hw : s.writeFail
  · simp [AgentOrchestrator.process_message, MemoryAgent.save_message, MemoryAgent.save_client,
      MemoryAgent.update_lead_score, hw, save_messagePure_writeFail, save_clientPure_writeFail,
      except_error_bind, except_ok_bind, except_map_ok, except_map_error] at hpm
    rw [← hpm.1]
    simp [MemoryAgent.update_lead_scorePure, save_clientPure_writeFail,
      save_messagePure_writeFail, hw]
  · rw [process_message_fail s o message client_id hw] at hpm
    cases hpm

/-- C8: on a healthy store, `auto_reply` runs the full analysis, chooses the
output tone by first-match precedence (angry/frustrated sentiment gives
"professional", otherwise a hot lead gives "persuasive", otherwise the
caller-supplied tone is kept), translates the generated reply back into the
client's language exactly when the detected language differs from the
working language "en", applies the tone adjustment after that translation as
the final text transformation, and persists the final reply as an
"assistant" turn. -/
theorem C8_auto_reply (s : MemState) (o : Remote) (message client_id tone : String)
    (binfo : List (String × String)) (h : s.writeFail = false) :
    ∃ s₁ analysis s₂ res,
      AgentOrchestrator.process_message s o message client_id true = Except.ok (s₁, analysis) ∧
      AgentOrchestrator.auto_reply s o message client_id tone binfo = Except.ok (s₂, res) ∧
      res.analysis = analysis ∧
      res.auto_reply =
        TranslatorAgent.adjust_tone o
          (if analysis.detected_language ≠ "en" then
            TranslatorAgent.translate_for_client o
              (QuickResponseAgent.generate_best_reply o analysis.translated_message
                analysis.sentiment analysis.lead_qualification analysis.client_context.summary
                binfo)
              analysis.detected_language
           else
            QuickResponseAgent.generate_best_reply o analysis.translated_message
              analysis.sentiment analysis.lead_qualification analysis.client_context.summary
              binfo)
          (if analysis.sentiment.sentiment = "angry" ∨ analysis.sentiment.sentiment = "frustrated"
             then "professional"
           else if analysis.lead_qualification.score = "hot" then "persuasive"
           else tone) ∧
      (∃ n ts, s₂.conversations = s₁.conversations ++
        [{ id := n
           client_id := client_id
           role := "assistant"
           content := res.auto_reply
           timestamp := ts
           platform := "instagram" }]) := by
  cases hpm : AgentOrchestrator.process_message s o message client_id true with
  | error e =>
    have hok := process_message_isOk s o message client_id h
    rw [hpm] at hok
    cases hok
  | ok p =>
    obtain ⟨s₁, analysis⟩ := p
    have hw1 : s₁.writeFail = false :=
      process_message_ok_writeFail s o message client_id s₁ analysis hpm
    have htone :
        (if ["angry", "frustrated"].contains analysis.sentiment.sentiment then "professional"
         else if analysis.lead_qualification.score == "hot" then "persuasive"
         else tone) =
        (if analysis.sentiment.sentiment = "angry" ∨ analysis.sentiment.sentiment = "frustrated"
           then "professional"
         else if analysis.lead_qualification.score = "hot" then "persuasive"
         else tone) := by
      by_cases h1 : analysis.sentiment.sentiment = "angry"
      · simp [h1]
      · by_cases h2 : analysis.sentiment.sentiment = "frustrated"
        · simp [h1, h2]
        · by_cases h3 : analysis.lead_qualification.score = "hot" <;> simp [h1, h2, h3]
    have hlang :
        (if analysis.detected_language != "en" then
          TranslatorAgent.translate_for_client o
            (QuickResponseAgent.generate_best_reply o analysis.translated_message
              analysis.sentiment analysis.lead_qualification analysis.client_context.summary
              binfo)
            analysis.detected_language
         else
          QuickResponseAgent.generate_best_reply o analysis.translated_message
            analysis.sentiment analysis.lead_qualification analysis.client_context.summary
            binfo) =
        (if analysis.detected_language ≠ "en" then
          TranslatorAgent.translate_for_client o
            (QuickResponseAgent.generate_best_reply o analysis.translated_message
              analysis.sentiment analysis.lead_qualification analysis.client_context.summary
              binfo)
            analysis.detected_language
         else
          QuickResponseAgent.generate_best_reply o analysis.translated_message
            analysis.sentiment analysis.lead_qualification analysis.client_context.summary
            binfo) := by
      by_cases hd : analysis.detected_language = "en" <;> simp [hd]
    refine ⟨s₁, analysis,
      MemoryAgent.save_messagePure s₁ client_id "assistant"
        (TranslatorAgent.adjust_tone o
          (if analysis.detected_language != "en" then
            TranslatorAgent.translate_for_client o
              (QuickResponseAgent.generate_best_reply o analysis.translated_message
                analysis.sentiment analysis.lead_qualification analysis.client_context.summary
                binfo)
              analysis.detected_language
           else
            QuickResponseAgent.generate_best_reply o analysis.translated_message
              analysis.sentiment analysis.lead_qualification analysis.client_context.summary
              binfo)
          (if ["angry", "frustrated"].contains analysis.sentiment.sentiment then "professional"
           else if analysis.lead_qualification.score == "hot" then "persuasive"
           else tone))
        "instagram",
      { client_id := client_id
        original_message := message
        detected_language := analysis.detected_language
        sentiment := analysis.sentiment.sentiment
        priority := analysis.sentiment.priority
        lead_score := analysis.lead_qualification.score
        auto_reply :=
          TranslatorAgent.adjust_tone o
            (if analysis.detected_language != "en" then
              TranslatorAgent.translate_for_client o
                (QuickResponseAgent.generate_best_reply o analysis.translated_message
                  analysis.sentiment analysis.lead_qualification analysis.client_context.summary
                  binfo)
                analysis.detected_language
             else
              QuickResponseAgent.generate_best_reply o analysis.translated_message
                analysis.sentiment analysis.lead_qualification analysis.client_context.summary
                binfo)
            (if ["angry", "frustrated"].contains analysis.sentiment.sentiment then "professional"
             else if analysis.lead_qualification.score == "hot" then "persuasive"
             else tone)
        analysis := analysis },
      rfl, ?_, rfl, ?_, ?_⟩
    · simp [AgentOrchestrator.auto_reply, hpm, except_ok_bind, MemoryAgent.save_message, hw1,
        except_map_ok]
    · simp only [htone, hlang]
    · refine ⟨(MemoryAgent.save_clientPure s₁ client_id none none).nextConvId,
        (MemoryAgent.save_clientPure s₁ client_id none none).clock, ?_⟩
      unfold MemoryAgent.save_messagePure
      dsimp only
      rw [save_clientPure_conversations]

/-- C8 witness: the auto-reply pipeline at a concrete healthy store. -/
theorem C8_auto_reply_witness :
    ∃ s₁ analysis s₂ res,
      AgentOrchestrator.process_message emptyMem noParseRemote "Hola" "c1" true =
        Except.ok (s₁, analysis) ∧
      AgentOrchestrator.auto_reply emptyMem noParseRemote "Hola" "c1" "friendly" [] =
        Except.ok (s₂, res) ∧
      res.analysis = analysis ∧
      res.auto_reply =
        TranslatorAgent.adjust_tone noParseRemote
          (if analysis.detected_language ≠ "en" then
            TranslatorAgent.translate_for_client noParseRemote
              (QuickResponseAgent.generate_best_reply noParseRemote analysis.translated_message
                analysis.sentiment analysis.lead_qualification analysis.client_context.summary
                [])
              analysis.detected_language
           else
            QuickResponseAgent.generate_best_reply noParseRemote analysis.translated_message
              analysis.sentiment analysis.lead_qualification analysis.client_context.summary
              [])
          (if analysis.sentiment.sentiment = "angry" ∨ analysis.sentiment.sentiment = "frustrated"
             then "professional"
           else if analysis.lead_qualification.score = "hot" then "persuasive"
           else "friendly") ∧
      (∃ n ts, s₂.conversations = s₁.conversations ++
        [{ id := n
           client_id := "c1"
           role := "assistant"
           content := res.auto_reply
           timestamp := ts
           platform := "instagram" }]) :=
  C8_auto_reply emptyMem noParseRemote "Hola" "c1" "friendly" [] rfl

/-- Two lists that are permutations of each other, both sorted descending by
a numeric key, are equal when the first repeats no key. -/
theorem sorted_key_perm_eq {α : Type} (key : α → Nat) :
    ∀ {l₁ l₂ : List α}, l₁.Perm l₂ →
      l₁.Pairwise (fun a b => key b ≤ key a) →
      l₂.Pairwise (fun a b => key b ≤ key a) →
      (l₁.map key).Nodup →
      l₁ = l₂ := by
  intro l₁
  induction l₁ with
  | nil =>
    intro l₂ hp _ _ _
    exact hp.nil_eq
  | cons a t₁ ih =>
    intro l₂ hp hs₁ hs₂ hnd
    cases l₂ with
    | nil => exact absurd hp.symm.nil_eq (by simp)
    | cons b t₂ =>
      have hnd' : key a ∉ t₁.map key ∧ (t₁.map key).Nodup := by
        simpa [List.nodup_cons] using hnd
      have hab : a = b := by
        by_contra hne
        have ha2 : a ∈ t₂ := by
          rcases List.mem_cons.mp (hp.mem_iff.mp (List.mem_cons_self a t₁)) with h | h
          · exact absurd h hne
          · exact h
        have hb1 : b ∈ t₁ := by
          rcases List.mem_cons.mp (hp.symm.mem_iff.mp (List.mem_cons_self b t₂)) with h | h
          · exact absurd h.symm hne
          · exact h
        have h1 : key b ≤ key a := List.rel_of_pairwise_cons hs₁ hb1
        have h2 : key a ≤ key b := List.rel_of_pairwise_cons hs₂ ha2
        exact hnd'.1 ((le_antisymm h2 h1) ▸ List.mem_map_of_mem key hb1)
      subst hab
      rw [ih hp.cons_inv (List.Pairwise.of_cons hs₁) (List.Pairwise.of_cons hs₂) hnd'.2]

/-- C6 counterexample: with two stored messages of the client sharing one
timestamp ("first" inserted before "second") and limit 1, `get_history`
returns the earlier-inserted "first" — sqlite3's stable `ORDER BY timestamp
DESC` puts the earliest-inserted tied row at the top of the DESC output —
whereas the claim's "most recent limit messages, ties broken by insertion
order" suffix is ["second"]. -/
theorem C6_get_history_tie_counterexample :
    MemoryAgent.get_history tieMem "c1" 1 =
      [{ role := "client", content := "first", timestamp := some 5 }] ∧
    ((tieMem.conversations.filter (fun r => r.client_id == "c1")).map
        (fun r => ({ role := r.role, content := r.content, timestamp := some r.timestamp } :
          Msg))).rtake 1 =
      [{ role := "client", content := "second", timestamp := some 5 }] ∧
    MemoryAgent.get_history tieMem "c1" 1 ≠
      ((tieMem.conversations.filter (fun r => r.client_id == "c1")).map
        (fun r => ({ role := r.role, content := r.content, timestamp := some r.timestamp } :
          Msg))).rtake 1 := by
  refine ⟨?_, by decide, ?_⟩
  · simp [MemoryAgent.get_history, MemoryAgent.orderByTimestampDesc, tieMem, emptyMem,
      List.mergeSort, List.splitInTwo, List.splitAt, List.splitAt.go, List.merge]
  · intro h
    rw [show ((tieMem.conversations.filter (fun r => r.client_id == "c1")).map
        (fun r => ({ role := r.role, content := r.content, timestamp := some r.timestamp } :
          Msg))).rtake 1 =
        [{ role := "client", content := "second", timestamp := some 5 }] from by decide] at h
    have h1 : MemoryAgent.get_history tieMem "c1" 1 =
        [{ role := "client", content := "first", timestamp := some 5 }] := by
      simp [MemoryAgent.get_history, MemoryAgent.orderByTimestampDesc, tieMem, emptyMem,
        List.mergeSort, List.splitInTwo, List.splitAt, List.splitAt.go, List.merge]
    rw [h1] at h
    simp at h

/-- C6 (amended): `getHistory(id, limit)` returns at most `limit` messages
whose timestamps are non-decreasing; when the client's stored timestamps are
strictly increasing in insertion order (no ties) it is exactly the suffix of
the most recent `limit` messages of the full history in chronological order.
(With tied timestamps sqlite3's stable `ORDER BY timestamp DESC` selects the
earliest-inserted rows of a tied group first, so the most-recent/suffix
reading fails — see the counterexample.) -/
theorem C6_get_history (s : MemState) (cid : String) (limit : Nat) :
    (MemoryAgent.get_history s cid limit).length ≤ limit ∧
    List.Pairwise
      (fun a b : Msg => ∀ ta tb, a.timestamp = some ta → b.timestamp = some tb → ta ≤ tb)
      (MemoryAgent.get_history s cid limit) ∧
    (List.Pairwise (fun a b => a.timestamp < b.timestamp)
        (s.conversations.filter (fun r => r.client_id == cid)) →
      MemoryAgent.get_history s cid limit =
        ((s.conversations.filter (fun r => r.client_id == cid)).map
          (fun r => ({ role := r.role, content := r.content, timestamp := some r.timestamp } :
            Msg))).rtake limit) := by
  have hsorted : ((s.conversations.filter (fun r => r.client_id == cid)).mergeSort
      (fun a b => decide (b.timestamp ≤ a.timestamp))).Pairwise
      (fun a b => decide (b.timestamp ≤ a.timestamp)) :=
    List.sorted_mergeSort
      (fun a b c hab hbc => by
        simp only [decide_eq_true_iff] at hab hbc ⊢
        omega)
      (fun a b => by
        simp only [Bool.or_eq_true, decide_eq_true_iff]
        omega)
      (s.conversations.filter (fun r => r.client_id == cid))
  refine ⟨?_, ?_, ?_⟩
  · unfold MemoryAgent.get_history
    simp only [List.length_map, List.length_reverse]
    exact List.length_take_le limit _
  · unfold MemoryAgent.get_history MemoryAgent.orderByTimestampDesc
    have hpre : (((List.filter (fun r => r.client_id == cid) s.conversations).mergeSort
        (fun a b => decide (b.timestamp ≤ a.timestamp))).take limit).reverse.Pairwise
        (fun a b : ConversationRow => a.timestamp ≤ b.timestamp) := by
      rw [List.pairwise_reverse]
      refine List.Pairwise.imp ?_ (hsorted.sublist (List.take_sublist limit _))
      intro a b h
      simpa using h
    refine List.Pairwise.map _ ?_ hpre
    intro a b hab ta tb hta htb
    cases hta
    cases htb
    exact hab
  · intro hstrict
    have hge : ((s.conversations.filter (fun r => r.client_id == cid)).reverse).Pairwise
        (fun a b => (ConversationRow.timestamp b) ≤ ConversationRow.timestamp a) := by
      rw [List.pairwise_reverse]
      exact hstrict.imp (fun h => Nat.le_of_lt h)
    have hnodup : (((s.conversations.filter (fun r => r.client_id == cid)).mergeSort
        (fun a b => decide (b.timestamp ≤ a.timestamp))).map
          ConversationRow.timestamp).Nodup := by
      have hn : ((s.conversations.filter (fun r => r.client_id == cid)).map
          ConversationRow.timestamp).Nodup := by
        refine List.Pairwise.map _ ?_ hstrict
        intro a b h
        omega
      exact ((List.mergeSort_perm _ _).map ConversationRow.timestamp).nodup_iff.mpr hn
    have heq : (s.conversations.filter (fun r => r.client_id == cid)).mergeSort
        (fun a b => decide (b.timestamp ≤ a.timestamp)) =
        (s.conversations.filter (fun r => r.client_id == cid)).reverse := by
      refine sorted_key_perm_eq ConversationRow.timestamp ?_ ?_ hge hnodup
      · exact (List.mergeSort_perm _ _).trans (List.reverse_perm _).symm
      · refine hsorted.imp ?_
        intro a b h
        simpa using h
    unfold MemoryAgent.get_history MemoryAgent.orderByTimestampDesc
    rw [heq, ← List.rtake_eq_reverse_take_reverse]
    unfold List.rtake
    rw [List.map_drop, List.length_map]
